import Mathlib

/-!
Shallow embedding of the nativescript-canvas-interface plugin.

Sandbox side (`src/www/nativescript-canvas-interface.ts`): the `NSCanvasInterface`
class with its process-wide instance table, the dispatcher `_callCanvasReqHandler`
and the two entry points `_setImage` / `_createImage`.

Host side (the NativeScript proxy class `NativescriptCanvasInterface`): `setImage`,
`_resolveImageSourceAndFormat`, `_getBase64StrFromImageSource`, `_callJSFunction`
and `_getImageSourceFromBase64Str`.

Promises are modelled by their eventual fate: `pending` (the promise never
settles), `fulfilled v`, or `rejected e`.  A callback chain that drops a
rejection (a `.then` with no rejection handler whose input promise rejects)
leaves the outer promise `pending`, exactly as in the JavaScript runtime.
-/

mutual

/-- Values of the embedded JavaScript fragment: the primitives the plugin code
inspects (`undefined`, `null`, booleans, numbers, strings), the DOM objects it
passes to handlers (an `Image` element carrying its `src`, the canvas and its
2d context), and thenables, identified by their eventual fate. -/
inductive JSVal where
  | undef
  | null
  | bool (b : Bool)
  | num (n : Int)
  | str (s : String)
  | imageEl (src : String)
  | canvasRef (id : String)
  | contextRef (id : String)
  | thenable (f : JFate)

/-- Eventual fate of a promise: never settles, fulfills with a value, or
rejects with a reason. -/
inductive JFate where
  | pending
  | fulfilled (v : JSVal)
  | rejected (e : JSVal)

end

deriving instance DecidableEq for JSVal
deriving instance DecidableEq for JFate

/-- JavaScript truthiness of an embedded value (`!v` is `jsTruthy v = false`).
Objects (image elements, canvas, context, thenables) are always truthy. -/
def jsTruthy : JSVal → Bool
  | .undef => false
  | .null => false
  | .bool b => b
  | .num n => n != 0
  | .str s => s != ""
  | .imageEl _ => true
  | .canvasRef _ => true
  | .contextRef _ => true
  | .thenable _ => true

/-- The sandbox's canvas element: its `id` attribute and its
`toDataURL(mimeType)` export capability (external browser API, kept abstract
as a string-valued function). -/
structure Canvas where
  id : String
  toDataURL : String → String

/-- Result of invoking a registered handler function: it either throws
synchronously or returns a value (possibly a thenable, possibly `undefined`). -/
inductive HandlerOutcome where
  | throws (e : JSVal)
  | returns (v : JSVal)

/-- A registered canvas request handler, as a function of its full JavaScript
argument list `(canvas, context, ...args)`. -/
abbrev CanvasReqHandler := List JSVal → HandlerOutcome

/-- One `NSCanvasInterface` instance: its canvas element and its
`canvasReqHandlers` map from function name to handler (`none` models the
absence of the property, i.e. a falsy lookup). -/
structure NSCanvasInterface where
  canvas : Canvas
  canvasReqHandlers : String → Option CanvasReqHandler

/-- The process-wide `_canvasInterfaceInstanceMap`, modelled as an association
list where the most recent assignment is at the head (JavaScript object
assignment `map[id] = this` is last-write-wins). -/
abbrev InstMap := List (String × NSCanvasInterface)

/-- The `NSCanvasInterface` constructor's effect on the instance table:
`NSCanvasInterface._canvasInterfaceInstanceMap[canvas.id] = this`. -/
def registerInstance (inst : NSCanvasInterface) (m : InstMap) : InstMap :=
  (inst.canvas.id, inst) :: m

/-- `NSCanvasInterface._getCanvasInstanceById`: lookup in the instance table;
the head of the list (the most recent assignment) wins. -/
def _getCanvasInstanceById : InstMap → String → Option NSCanvasInterface
  | [], _ => none
  | (k, v) :: rest, canvasId =>
      if k = canvasId then some v else _getCanvasInstanceById rest canvasId

/-- The string thrown by `_callCanvasReqHandler` when no instance is registered
for the canvas id. -/
def errNoInstance (canvasId : String) : JSVal :=
  .str ("No canvas interface instance found for canvas " ++ canvasId)

/-- The string thrown by `_callCanvasReqHandler` when the function name is not
in the instance's handler map. -/
def errNotRegistered (functionName canvasId : String) : JSVal :=
  .str ("Function " ++ functionName ++ " is not registered with canvas " ++ canvasId)

/-- Return-value normalization inside `_callCanvasReqHandler`'s executor:
`if (!retnValue) retnValue = Promise.resolve(); else if (!retnValue.then)
retnValue = Promise.resolve(retnValue); resolve(retnValue)`.  A falsy return
becomes a promise fulfilled with `undefined`; a truthy thenable is adopted
(`resolve` takes over its fate); any other truthy value fulfills the promise. -/
def normalizeRetn (v : JSVal) : JFate :=
  if jsTruthy v = false then .fulfilled .undef
  else
    match v with
    | .thenable f => f
    | _ => .fulfilled v

/-- What a call to `_callCanvasReqHandler` does: throw synchronously (before
any promise is created), or return a promise with the given eventual fate. -/
inductive CallResult where
  | thrown (e : JSVal)
  | promise (f : JFate)

deriving instance DecidableEq for CallResult

/-- `NSCanvasInterface._callCanvasReqHandler(canvasId, functionName, args)`.
Looks up the instance, then the handler; a failed lookup throws a string.
Otherwise it returns a new promise whose executor invokes the handler with
`[canvas, context].concat(args)`: a synchronous throw from the handler rejects
the promise (an exception in a promise executor rejects it), and the returned
value is normalized by `normalizeRetn`.  The second component instruments
whether the registered handler was actually invoked. -/
def _callCanvasReqHandler (m : InstMap) (canvasId functionName : String)
    (args : List JSVal) : CallResult × Bool :=
  match _getCanvasInstanceById m canvasId with
  | none => (.thrown (errNoInstance canvasId), false)
  | some inst =>
      match inst.canvasReqHandlers functionName with
      | none => (.thrown (errNotRegistered functionName canvasId), false)
      | some handler =>
          match handler (.canvasRef inst.canvas.id :: .contextRef inst.canvas.id :: args) with
          | .throws e => (.promise (.rejected e), true)
          | .returns v => (.promise (normalizeRetn v), true)

/-- `NSCanvasInterface._setImage(canvasId, functionName, base64IamgeStr, args)`.
The returned promise's executor sets `image.onload` and assigns `image.src`;
`imageLoads` records whether the load event ever fires (there is no `onerror`
handler in the source, so a failed load leaves the promise pending).  Inside
`onload`, `_callCanvasReqHandler` is invoked with `[image].concat(args)` under
`try`/`catch` (a synchronous throw rejects the outer promise) and its promise
is chained with `retnPromise.then(v => resolve(v))` — with no rejection
handler, so a rejected handler promise leaves the outer promise pending.
The second component instruments whether the registered handler was invoked. -/
def _setImage (m : InstMap) (canvasId functionName base64IamgeStr : String)
    (args : List JSVal) (imageLoads : Bool) : JFate × Bool :=
  if imageLoads then
    match _callCanvasReqHandler m canvasId functionName (.imageEl base64IamgeStr :: args) with
    | (.thrown e, inv) => (.rejected e, inv)
    | (.promise (.fulfilled v), inv) => (.fulfilled v, inv)
    | (.promise (.rejected _), inv) => (.pending, inv)
    | (.promise .pending, inv) => (.pending, inv)
  else (.pending, false)

/-- The object `{_strImage, data}` with which `_createImage` resolves. -/
structure CreateImageResponse where
  _strImage : String
  data : JSVal

deriving instance DecidableEq for CreateImageResponse

/-- Eventual fate of the promise returned by `_createImage`. -/
inductive CreateResult where
  | pending
  | fulfilled (r : CreateImageResponse)
  | rejected (e : JSVal)

deriving instance DecidableEq for CreateResult

/-- `NSCanvasInterface._createImage(canvasId, functionName, imgFormat, args)`.
Invokes `_callCanvasReqHandler` under `try`/`catch` (synchronous throws reject
the returned promise), then chains `retnPromise.then(data => ...)` — again with
no rejection handler, so a rejected handler promise leaves the outer promise
pending.  Inside the `then` callback the instance table is consulted a second
time (`_getCanvasInstanceById`), against the table as it stands when the
handler's promise settles (`mLater`); the canvas of that instance is exported
with `toDataURL(imgFormat === 'png' ? 'image/png' : 'image/jpeg')`.  If the
second lookup finds nothing, reading `.canvas` throws inside the `then`
callback, which only rejects the derived (unobserved) promise: the outer
promise stays pending.  The second component instruments whether the
registered handler was invoked. -/
def _createImage (m mLater : InstMap) (canvasId functionName imgFormat : String)
    (args : List JSVal) : CreateResult × Bool :=
  match _callCanvasReqHandler m canvasId functionName args with
  | (.thrown e, inv) => (.rejected e, inv)
  | (.promise .pending, inv) => (.pending, inv)
  | (.promise (.rejected _), inv) => (.pending, inv)
  | (.promise (.fulfilled data), inv) =>
      match _getCanvasInstanceById mLater canvasId with
      | none => (.pending, inv)
      | some instLater =>
          (.fulfilled
            ⟨instLater.canvas.toDataURL
              (if imgFormat = "png" then "image/png" else "image/jpeg"), data⟩, inv)

/-!
Host side: the `NativescriptCanvasInterface` proxy class.
-/

/-- Modelled from the spec: the external NativeScript `ImageSource` resource
(the image-resource contract of §6), as an opaque handle: either the result of
`fromFile(path)` or some other pre-existing resource handle. -/
inductive ImageSourceV where
  | fromFile (path : String)
  | handle (tag : Nat)

deriving instance DecidableEq for ImageSourceV

/-- Modelled from the spec: the external `toBase64String(format)` capability of
an image resource, kept abstract as an injective encoder that records the
resource and the requested format. -/
def ImageSourceV.toBase64String : ImageSourceV → String → String
  | .fromFile p, fmt => "bytes[" ++ fmt ++ "][file:" ++ p ++ "]"
  | .handle n, fmt => "bytes[" ++ fmt ++ "][handle:" ++ toString n ++ "]"

/-- The `image` argument accepted by the proxy's `setImage`: a NativeScript
`Image` view (whose `imageSource` property may be unset), an `ImageSource`
handle, a string path, or values outside the three variants (`null`, a plain
number, some other object).  `typeof` is `'string'` for `path`, `'number'` for
`number`, and `'object'` for the rest (including `null`). -/
inductive ImageArg where
  | view (imageSource : Option ImageSourceV)
  | source (s : ImageSourceV)
  | path (s : String)
  | jsNull
  | number (n : Int)
  | otherObject

/-- JavaScript whitespace, as far as the plugin's `trim()` call is concerned. -/
def isJsWhitespace (c : Char) : Bool :=
  c = ' ' || c = '\t' || c = '\n' || c = '\r'

/-- The JavaScript `s.trim()`: strip leading and trailing whitespace. -/
def jsTrim (l : List Char) : List Char :=
  ((l.dropWhile isJsWhitespace).reverse.dropWhile isJsWhitespace).reverse

/-- The JavaScript expression
`image.substring(image.lastIndexOf('.') + 1, image.length)`: the characters
after the last dot, or the whole string when it contains no dot
(`lastIndexOf` returns `-1`). -/
def afterLastDot (s : String) : String :=
  String.mk ((s.data.reverse.takeWhile (fun c => c ≠ '.')).reverse)

/-- The JavaScript expression `format || d` on a string-or-null variable:
`null` and the empty string are falsy and yield `d`. -/
def jsOrStr (format : Option String) (d : String) : Option String :=
  match format with
  | none => some d
  | some s => if s = "" then some d else some s

/-- `NativescriptCanvasInterface.prototype._resolveImageSourceAndFormat(image, format)`.
A non-empty (after trim) string path yields `fromFile(image)` and
`format = format || <extension after the last dot>`; an `Image` view yields its
`imageSource` property (which may be unset); an `ImageSource` yields itself;
everything else leaves `imageSource` undefined.  `format` is a
string-or-null (`none` models `null`). -/
def _resolveImageSourceAndFormat (image : ImageArg) (format : Option String) :
    Option ImageSourceV × Option String :=
  match image with
  | .path s =>
      if 0 < (jsTrim s.data).length then
        (some (.fromFile s), jsOrStr format (afterLastDot s))
      else (none, format)
  | .view src => (src, format)
  | .source s => (some s, format)
  | .jsNull => (none, format)
  | .number _ => (none, format)
  | .otherObject => (none, format)

/-- `NativescriptCanvasInterface.prototype._getBase64StrFromImageSource(imageSource, format)`:
`'jpeg'`/`'jpg'` produce a jpeg data URI, anything else (including `null`) a
png data URI. -/
def _getBase64StrFromImageSource (imageSource : ImageSourceV)
    (format : Option String) : String :=
  if format = some "jpeg" ∨ format = some "jpg" then
    "data:image/jpeg;base64," ++ imageSource.toBase64String "jpeg"
  else
    "data:image/png;base64," ++ imageSource.toBase64String "png"

/-- How the caller supplied `setImage`'s `format` parameter: omitted (or
explicitly `undefined`), explicitly `null`, or an explicit string.  The
TypeScript default parameter `format = 'png'` applies only in the first case. -/
inductive FormatArg where
  | omitted
  | jsNull
  | given (s : String)

/-- The value of the `format` variable after default-parameter application
(`if (format === void 0) format = 'png'`). -/
def defaultFormat : FormatArg → Option String
  | .omitted => some "png"
  | .jsNull => none
  | .given s => some s

/-- Observable outcome of the proxy's `setImage` before any transport
response: either it returns `Promise.reject(reason)` without calling the
transport, or it issues one `callJSFunction(remoteFnName, callArgs, ...)`
transport call. -/
inductive SetImageResult where
  | rejectedPromise (reason : String)
  | transportCall (remoteFnName : String) (callArgs : List JSVal)

deriving instance DecidableEq for SetImageResult

/-- `NativescriptCanvasInterface.prototype.setImage(functionName, image, args, format)`
for a proxy constructed with `canvasId`.  Resolves the image source and format,
returns `Promise.reject('Please provide Image, ImageSource object or Valid
Image Path')` when no image source was resolved, and otherwise issues the
transport call `'NSCanvasInterface._setImage'` with
`[this.canvasId, functionName, base64ImageStr].concat(args || [])`. -/
def setImage (canvasId functionName : String) (image : ImageArg)
    (args : Option (List JSVal)) (format : FormatArg) : SetImageResult :=
  match _resolveImageSourceAndFormat image (defaultFormat format) with
  | (none, _) => .rejectedPromise "Please provide Image, ImageSource object or Valid Image Path"
  | (some imageSource, fmt) =>
      .transportCall "NSCanvasInterface._setImage"
        (JSVal.str canvasId :: JSVal.str functionName ::
          JSVal.str (_getBase64StrFromImageSource imageSource fmt) :: args.getD [])

/-- The JavaScript `s.split(c)` for a one-character separator: the list of
(possibly empty) segments between occurrences of `c`. -/
def splitOnChar (c : Char) : List Char → List (List Char)
  | [] => [[]]
  | x :: xs =>
      if x = c then [] :: splitOnChar c xs
      else
        match splitOnChar c xs with
        | [] => [[x]]
        | y :: ys => (x :: y) :: ys

/-- Modelled from the spec: the external `fromBase64` constructor of the
image-resource contract, recorded by the argument the host code passes to it
(`none` models passing `undefined`). -/
structure FromB64 where
  payload : Option String

deriving instance DecidableEq for FromB64

/-- `NativescriptCanvasInterface.prototype._getImageSourceFromBase64Str(base64ImageStr)`:
`fromBase64(base64ImageStr.split(",")[1])` — the external decoder receives the
segment of the string between the first and second comma, or `undefined` when
the string contains no comma. -/
def _getImageSourceFromBase64Str (base64ImageStr : String) : FromB64 :=
  ⟨((splitOnChar ',' base64ImageStr.data).get? 1).map String.mk⟩

/-- The response object the web-view side passes to the host's success
callback: its `_strImage` property (`none` models absent/undefined) and its
`data` property. -/
structure CanvasJSResponse where
  _strImage : Option String
  data : JSVal

deriving instance DecidableEq for CanvasJSResponse

/-- How the transport settles a `callJSFunction` call: the success callback
fires with a response object (or a falsy response, modelled `none`), or the
error callback fires. -/
inductive TransportOutcome where
  | success (response : Option CanvasJSResponse)
  | failure (e : JSVal)

/-- Settlement of the promise returned by the host's `_callJSFunction`. -/
inductive HostResult where
  | resolvedUndefined
  | resolved (image : Option FromB64) (data : JSVal)
  | rejected (e : JSVal)

deriving instance DecidableEq for HostResult

/-- The `image` field built inside `_callJSFunction`'s success callback:
`response._strImage ? this._getImageSourceFromBase64Str(response._strImage) : null`. -/
def hostImageField (response : CanvasJSResponse) : Option FromB64 :=
  match response._strImage with
  | some s => if s ≠ "" then some (_getImageSourceFromBase64Str s) else none
  | none => none

/-- `NativescriptCanvasInterface.prototype._callJSFunction(functionName, args)`,
by the transport outcome of the one `callJSFunction` call it issues.  A falsy
response resolves the promise with `undefined`; otherwise it resolves with
`{image: response._strImage ? decode(...) : null, data: response.data || null}`;
a transport error rejects with the error value unchanged. -/
def _callJSFunction (outcome : TransportOutcome) : HostResult :=
  match outcome with
  | .failure e => .rejected e
  | .success none => .resolvedUndefined
  | .success (some response) =>
      .resolved (hostImageField response)
        (if jsTruthy response.data then response.data else .null)

/-!
Concrete fixtures used by counterexamples and witnesses.
-/

/-- A canvas with id `"c"` whose export capability tags its output `old`. -/
def demoCanvas : Canvas := ⟨"c", fun mime => "old[" ++ mime ++ "]"⟩

/-- A second canvas with the same id `"c"` whose export capability tags its
output `new`. -/
def demoCanvas2 : Canvas := ⟨"c", fun mime => "new[" ++ mime ++ "]"⟩

/-- A handler map registering the same handler under every name. -/
def handlerMapOf (h : CanvasReqHandler) : String → Option CanvasReqHandler :=
  fun _ => some h

/-- A handler whose returned promise rejects with `"boom"`. -/
def boomHandler : CanvasReqHandler :=
  fun _ => .returns (.thenable (.rejected (.str "boom")))

/-- A handler that throws `"boom"` synchronously when invoked. -/
def throwHandler : CanvasReqHandler := fun _ => .throws (.str "boom")

/-- A handler returning the number `0` (a falsy value). -/
def zeroHandler : CanvasReqHandler := fun _ => .returns (.num 0)

/-- A handler returning the number `7` (a truthy non-thenable value). -/
def sevenHandler : CanvasReqHandler := fun _ => .returns (.num 7)

/-- An empty handler map. -/
def noHandlers : String → Option CanvasReqHandler := fun _ => none

/-- Instance for canvas `"c"` whose handlers all reject with `"boom"`. -/
def boomInst : NSCanvasInterface := ⟨demoCanvas, handlerMapOf boomHandler⟩

/-- Instance for canvas `"c"` whose handlers all throw `"boom"` synchronously. -/
def throwInst : NSCanvasInterface := ⟨demoCanvas, handlerMapOf throwHandler⟩

/-- Instance for canvas `"c"` whose handlers all return `0`. -/
def zeroInst : NSCanvasInterface := ⟨demoCanvas, handlerMapOf zeroHandler⟩

/-- Instance for canvas `"c"` whose handlers all return `7`. -/
def sevenInst : NSCanvasInterface := ⟨demoCanvas, handlerMapOf sevenHandler⟩

/-- Instance for canvas `"c"` with no registered handlers. -/
def emptyInst : NSCanvasInterface := ⟨demoCanvas, noHandlers⟩

/-- A replacement instance for the same id `"c"`, backed by `demoCanvas2`. -/
def newInst : NSCanvasInterface := ⟨demoCanvas2, noHandlers⟩

/-!
Claim theorems.
-/

/-- C1 counterexample: with a registered handler whose returned thenable
rejects with `"boom"`, the `_setImage` dispatch promise does not reject with
`"boom"` — it never settles (and likewise for `_createImage`), refuting the
claim that the dispatch promise rejects with the handler's rejection value. -/
theorem c1_counterexample :
    _setImage [("c", boomInst)] "c" "f" "data:," [] true = (JFate.pending, true)
    ∧ JFate.pending ≠ JFate.rejected (JSVal.str "boom")
    ∧ (_createImage [("c", boomInst)] [("c", boomInst)] "c" "f" "png" []).1
        = CreateResult.pending :=
  ⟨rfl, by simp, rfl⟩

/-- C1 (amended): when the registered handler's returned thenable rejects with
`e` — and likewise when the handler throws `e` synchronously, since that throw
happens inside `_callCanvasReqHandler`'s promise executor — the promise
returned by `_callCanvasReqHandler` rejects with `e`, but neither entry point
relays it: both the `_setImage` and the `_createImage` dispatch promises
remain unsettled forever (the rejection is dropped by a `.then` with no
rejection handler).  Only the lookup failures, which `_callCanvasReqHandler`
throws synchronously before any promise exists, are caught by the entry
points' `try`/`catch` and turned into a rejected dispatch promise. -/
theorem c1_amended (m mLater : InstMap) (canvasId functionName b64 imgFormat : String)
    (args : List JSVal) (inst : NSCanvasInterface) (h : CanvasReqHandler) (e : JSVal) :
    (_getCanvasInstanceById m canvasId = some inst →
      inst.canvasReqHandlers functionName = some h →
      (∀ xs, h xs = .returns (.thenable (.rejected e))) →
      _callCanvasReqHandler m canvasId functionName args = (.promise (.rejected e), true)
      ∧ (_setImage m canvasId functionName b64 args true).1 = JFate.pending
      ∧ (_createImage m mLater canvasId functionName imgFormat args).1 = CreateResult.pending)
    ∧ (_getCanvasInstanceById m canvasId = some inst →
      inst.canvasReqHandlers functionName = some h →
      (∀ xs, h xs = .throws e) →
      _callCanvasReqHandler m canvasId functionName args = (.promise (.rejected e), true)
      ∧ (_setImage m canvasId functionName b64 args true).1 = JFate.pending
      ∧ (_createImage m mLater canvasId functionName imgFormat args).1 = CreateResult.pending)
    ∧ (_getCanvasInstanceById m canvasId = none →
      (_setImage m canvasId functionName b64 args true).1
        = JFate.rejected (errNoInstance canvasId)
      ∧ (_createImage m mLater canvasId functionName imgFormat args).1
        = CreateResult.rejected (errNoInstance canvasId))
    ∧ (_getCanvasInstanceById m canvasId = some inst →
      inst.canvasReqHandlers functionName = none →
      (_setImage m canvasId functionName b64 args true).1
        = JFate.rejected (errNotRegistered functionName canvasId)
      ∧ (_createImage m mLater canvasId functionName imgFormat args).1
        = CreateResult.rejected (errNotRegistered functionName canvasId)) := by
  refine ⟨?_, ?_, ?_, ?_⟩
  · intro hm hh hb
    have hcall : ∀ as, _callCanvasReqHandler m canvasId functionName as
        = (.promise (.rejected e), true) := by
      intro as
      simp [_callCanvasReqHandler, hm, hh, hb, normalizeRetn, jsTruthy]
    refine ⟨hcall args, ?_, ?_⟩
    · simp [_setImage, hcall]
    · simp [_createImage, hcall]
  · intro hm hh hb
    have hcall : ∀ as, _callCanvasReqHandler m canvasId functionName as
        = (.promise (.rejected e), true) := by
      intro as
      simp [_callCanvasReqHandler, hm, hh, hb]
    refine ⟨hcall args, ?_, ?_⟩
    · simp [_setImage, hcall]
    · simp [_createImage, hcall]
  · intro hm
    constructor <;> simp [_setImage, _createImage, _callCanvasReqHandler, hm]
  · intro hm hh
    constructor <;> simp [_setImage, _createImage, _callCanvasReqHandler, hm, hh]

/-- Witness for C1 (amended): a handler whose thenable rejects with `"boom"`
and a handler that throws `"boom"` synchronously both leave the entry-point
promises pending, while the two lookup failures reject the dispatch promise. -/
theorem c1_amended_witness :
    (_callCanvasReqHandler [("c", boomInst)] "c" "f" []
        = (.promise (.rejected (JSVal.str "boom")), true)
      ∧ (_setImage [("c", boomInst)] "c" "f" "data:," [] true).1 = JFate.pending
      ∧ (_createImage [("c", boomInst)] [] "c" "f" "png" []).1 = CreateResult.pending)
    ∧ (_callCanvasReqHandler [("c", throwInst)] "c" "f" []
        = (.promise (.rejected (JSVal.str "boom")), true)
      ∧ (_setImage [("c", throwInst)] "c" "f" "data:," [] true).1 = JFate.pending
      ∧ (_createImage [("c", throwInst)] [] "c" "f" "png" []).1 = CreateResult.pending)
    ∧ (_setImage [] "c" "f" "data:," [] true).1 = JFate.rejected (errNoInstance "c")
    ∧ (_setImage [("c", emptyInst)] "c" "f" "data:," [] true).1
        = JFate.rejected (errNotRegistered "f" "c") :=
  ⟨(c1_amended [("c", boomInst)] [] "c" "f" "data:," "png" [] boomInst boomHandler
      (JSVal.str "boom")).1 rfl rfl (fun _ => rfl),
   (c1_amended [("c", throwInst)] [] "c" "f" "data:," "png" [] throwInst throwHandler
      (JSVal.str "boom")).2.1 rfl rfl (fun _ => rfl),
   ((c1_amended [] [] "c" "f" "data:," "png" [] emptyInst boomHandler
      (JSVal.str "boom")).2.2.1 rfl).1,
   ((c1_amended [("c", emptyInst)] [] "c" "f" "data:," "png" [] emptyInst boomHandler
      (JSVal.str "boom")).2.2.2 rfl rfl).1⟩

/-- C2 counterexample: even with an instance and handler fully registered, a
base64 image string that fails to load leaves the `_setImage` dispatch promise
pending with the handler never invoked — it does not reject with an
`ImageDecodeError` (there is no `onerror` handler in the source). -/
theorem c2_counterexample :
    _setImage [("c", zeroInst)] "c" "setCanvasImage" "data:image/png;base64,XYZ" [] false
      = (JFate.pending, false)
    ∧ JFate.pending ≠ JFate.rejected (JSVal.str "ImageDecodeError") :=
  ⟨rfl, by simp⟩

/-- C2 (amended): in `_setImage` the handler is not invoked until the image has
finished loading — while the load has not completed, no handler runs and the
dispatch promise is unsettled; if the image fails to load, the dispatch
promise never settles at all (it rejects with nothing, rather than with
`ImageDecodeError`). -/
theorem c2_amended (m : InstMap) (canvasId functionName b64 : String) (args : List JSVal) :
    _setImage m canvasId functionName b64 args false = (JFate.pending, false)
    ∧ ∀ e, (_setImage m canvasId functionName b64 args false).1 ≠ JFate.rejected e :=
  ⟨rfl, fun e => by simp [_setImage]⟩

/-- C3 counterexample: a handler returning the number `0` yields a dispatch
value of `undefined`, not `0` — falsy returns are not passed through
unchanged, refuting the claimed normalization. -/
theorem c3_counterexample :
    _callCanvasReqHandler [("c", zeroInst)] "c" "f" []
      = (.promise (.fulfilled JSVal.undef), true)
    ∧ JSVal.undef ≠ JSVal.num 0 :=
  ⟨rfl, by simp⟩

/-- C3 (amended): the dispatcher normalizes the handler's return value by
JavaScript truthiness: any falsy value (`undefined`, `null`, `false`, `0`, the
empty string) becomes a resolved value of `undefined`; a truthy thenable is
awaited (its fate is adopted); any other truthy value is passed through as an
already-resolved value. -/
theorem c3_amended (m : InstMap) (canvasId functionName : String) (args : List JSVal)
    (inst : NSCanvasInterface) (h : CanvasReqHandler) (v : JSVal)
    (hm : _getCanvasInstanceById m canvasId = some inst)
    (hh : inst.canvasReqHandlers functionName = some h)
    (hv : h (.canvasRef inst.canvas.id :: .contextRef inst.canvas.id :: args) = .returns v) :
    (jsTruthy v = false →
      _callCanvasReqHandler m canvasId functionName args
        = (.promise (.fulfilled .undef), true))
    ∧ (∀ f, v = .thenable f →
      _callCanvasReqHandler m canvasId functionName args = (.promise f, true))
    ∧ (jsTruthy v = true → (∀ f, v ≠ .thenable f) →
      _callCanvasReqHandler m canvasId functionName args
        = (.promise (.fulfilled v), true)) := by
  have hres : _callCanvasReqHandler m canvasId functionName args
      = (.promise (normalizeRetn v), true) := by
    simp [_callCanvasReqHandler, hm, hh, hv]
  refine ⟨?_, ?_, ?_⟩
  · intro hf
    rw [hres]
    simp [normalizeRetn, hf]
  · rintro f rfl
    rw [hres]
    simp [normalizeRetn, jsTruthy]
  · intro ht hnt
    rw [hres]
    have hn : normalizeRetn v = JFate.fulfilled v := by
      cases v <;> first
        | exact absurd rfl (hnt _)
        | simp_all [normalizeRetn, jsTruthy]
    rw [hn]

/-- Witness for C3 (amended): a handler returning the truthy number `7` has its
value passed through unchanged. -/
theorem c3_amended_witness :
    _callCanvasReqHandler [("c", sevenInst)] "c" "f" []
      = (.promise (.fulfilled (JSVal.num 7)), true) :=
  (c3_amended [("c", sevenInst)] "c" "f" [] sevenInst sevenHandler (JSVal.num 7)
    rfl rfl rfl).2.2 rfl (fun f hf => by simp at hf)

/-- C4 counterexample: `setImage` with the path `"photo.jpeg"` and no explicit
format encodes as png — the default parameter `format = 'png'` makes
`format || extension` keep `'png'`, so the `.jpeg` extension is never
consulted; the transport payload differs from the jpeg encoding the claim
requires. -/
theorem c4_counterexample :
    setImage "c" "f" (.path "photo.jpeg") none .omitted
      = .transportCall "NSCanvasInterface._setImage"
          [JSVal.str "c", JSVal.str "f",
            JSVal.str "data:image/png;base64,bytes[png][file:photo.jpeg]"]
    ∧ "data:image/png;base64,bytes[png][file:photo.jpeg]"
        ≠ _getBase64StrFromImageSource (.fromFile "photo.jpeg") (some "jpeg") :=
  ⟨rfl, by decide⟩

/-- C4 (amended): the extension of a path argument is used for the encoding
format only when the caller explicitly passes a falsy format (`null` or the
empty string); when the format parameter is omitted, the default `'png'`
applies and no inference from the extension occurs. -/
theorem c4_amended (canvasId functionName p : String) (args : Option (List JSVal))
    (hp : 0 < (jsTrim p.data).length) :
    setImage canvasId functionName (.path p) args .omitted
      = .transportCall "NSCanvasInterface._setImage"
          (JSVal.str canvasId :: JSVal.str functionName ::
            JSVal.str (_getBase64StrFromImageSource (.fromFile p) (some "png")) :: args.getD [])
    ∧ setImage canvasId functionName (.path p) args .jsNull
      = .transportCall "NSCanvasInterface._setImage"
          (JSVal.str canvasId :: JSVal.str functionName ::
            JSVal.str (_getBase64StrFromImageSource (.fromFile p) (some (afterLastDot p))) ::
              args.getD [])
    ∧ setImage canvasId functionName (.path p) args (.given "")
      = .transportCall "NSCanvasInterface._setImage"
          (JSVal.str canvasId :: JSVal.str functionName ::
            JSVal.str (_getBase64StrFromImageSource (.fromFile p) (some (afterLastDot p))) ::
              args.getD []) := by
  refine ⟨?_, ?_, ?_⟩ <;>
    simp [setImage, _resolveImageSourceAndFormat, defaultFormat, jsOrStr, hp]

/-- Witness for C4 (amended) at the concrete path `"photo.jpeg"` with an
explicitly null format. -/
theorem c4_amended_witness :
    0 < (jsTrim "photo.jpeg".data).length
    ∧ setImage "c" "f" (.path "photo.jpeg") none .jsNull
      = .transportCall "NSCanvasInterface._setImage"
          [JSVal.str "c", JSVal.str "f",
            JSVal.str (_getBase64StrFromImageSource (.fromFile "photo.jpeg")
              (some (afterLastDot "photo.jpeg")))] :=
  ⟨by decide, (c4_amended "c" "f" "photo.jpeg" none (by decide)).2.1⟩

/-- C5: `setImage` on an image argument that is none of the three accepted
variants — a plain number, `null`, or an unrelated object — returns
`Promise.reject` with the invalid-image-source message (the code's rendering
of `InvalidImageSource`), is a total function (it cannot throw), and never
issues a transport call. -/
theorem c5_invalid_image_source (canvasId functionName : String)
    (args : Option (List JSVal)) (format : FormatArg) (n : Int) :
    setImage canvasId functionName (.number n) args format
      = .rejectedPromise "Please provide Image, ImageSource object or Valid Image Path"
    ∧ setImage canvasId functionName .jsNull args format
      = .rejectedPromise "Please provide Image, ImageSource object or Valid Image Path"
    ∧ setImage canvasId functionName .otherObject args format
      = .rejectedPromise "Please provide Image, ImageSource object or Valid Image Path"
    ∧ ∀ remoteFnName callArgs,
        setImage canvasId functionName (.number n) args format
          ≠ .transportCall remoteFnName callArgs := by
  refine ⟨rfl, rfl, rfl, fun remoteFnName callArgs hc => ?_⟩
  simp [setImage, _resolveImageSourceAndFormat] at hc

/-- C6 counterexample: a successful transport response carrying `data: 0`
makes the proxy resolve with `data: null`, not `0` — `response.data || null`
replaces every falsy `data` by `null`, refuting the claim that only
`null`/`undefined` are replaced. -/
theorem c6_counterexample :
    _callJSFunction (.success (some ⟨none, JSVal.num 0⟩)) = .resolved none JSVal.null
    ∧ JSVal.null ≠ JSVal.num 0 :=
  ⟨rfl, by simp⟩

/-- C6 (amended): for a successful transport response `r`, the proxy resolves
with a `data` field equal to `r.data` when `r.data` is truthy and `null`
otherwise — so `0`, `false` and the empty string are replaced by `null`; a
transport error rejects the proxy promise with the error value unchanged. -/
theorem c6_amended (r : CanvasJSResponse) (e : JSVal) :
    (jsTruthy r.data = true →
      _callJSFunction (.success (some r)) = .resolved (hostImageField r) r.data)
    ∧ (jsTruthy r.data = false →
      _callJSFunction (.success (some r)) = .resolved (hostImageField r) JSVal.null)
    ∧ _callJSFunction (.failure e) = .rejected e :=
  ⟨fun ht => by simp [_callJSFunction, ht],
   fun hf => by simp [_callJSFunction, hf],
   rfl⟩

/-- Witness for C6 (amended): a response with falsy `data: 0` (and a falsy
empty `_strImage`) resolves with `null` data, and a transport error value is
passed through unchanged. -/
theorem c6_amended_witness :
    _callJSFunction (.success (some ⟨some "", JSVal.num 0⟩))
      = .resolved (hostImageField ⟨some "", JSVal.num 0⟩) JSVal.null
    ∧ _callJSFunction (.failure (JSVal.str "transport down"))
      = .rejected (JSVal.str "transport down") :=
  ⟨(c6_amended ⟨some "", JSVal.num 0⟩ (JSVal.str "transport down")).2.1 rfl,
   (c6_amended ⟨some "", JSVal.num 0⟩ (JSVal.str "transport down")).2.2⟩

/-- Splitting never produces an empty list of segments. -/
theorem splitOnChar_ne_nil (c : Char) (l : List Char) : splitOnChar c l ≠ [] := by
  induction l with
  | nil => simp [splitOnChar]
  | cons x xs ih =>
    simp only [splitOnChar]
    by_cases hx : x = c
    · simp [hx]
    · simp only [if_neg hx]
      cases hsp : splitOnChar c xs with
      | nil => simp
      | cons y ys => simp

/-- The first segment of a split is the longest separator-free leading run. -/
theorem splitOnChar_head (c : Char) (l : List Char) :
    (splitOnChar c l).head? = some (l.takeWhile (fun x => x != c)) := by
  induction l with
  | nil => simp [splitOnChar]
  | cons x xs ih =>
    by_cases hx : x = c
    · subst hx
      simp [splitOnChar, List.takeWhile]
    · have hxb : (x != c) = true := by simp [hx]
      simp only [splitOnChar, if_neg hx]
      cases hsp : splitOnChar c xs with
      | nil => exact absurd hsp (splitOnChar_ne_nil c xs)
      | cons y ys =>
        rw [hsp] at ih
        simp only [List.head?, Option.some.injEq] at ih
        simp only [List.head?, List.takeWhile, hxb, Option.some.injEq]
        rw [ih]

/-- Splitting a string that starts with a separator-free run followed by the
separator yields that run as the first segment. -/
theorem splitOnChar_append (c : Char) (a b : List Char) (ha : c ∉ a) :
    splitOnChar c (a ++ c :: b) = a :: splitOnChar c b := by
  induction a with
  | nil => simp [splitOnChar]
  | cons x xs ih =>
    simp only [List.mem_cons, not_or] at ha
    obtain ⟨hne, ha'⟩ := ha
    have hx : ¬ x = c := fun h => hne h.symm
    rw [List.cons_append]
    simp only [splitOnChar, if_neg hx, ih ha']

/-- Splitting a separator-free string yields a single segment. -/
theorem splitOnChar_of_not_mem (c : Char) (l : List Char) (h : c ∉ l) :
    splitOnChar c l = [l] := by
  induction l with
  | nil => rfl
  | cons x xs ih =>
    simp only [List.mem_cons, not_or] at h
    obtain ⟨hne, h'⟩ := h
    have hx : ¬ x = c := fun hh => hne hh.symm
    simp only [splitOnChar, if_neg hx, ih h']

/-- C7 counterexample: on an encoded string whose payload contains a further
comma, the host-side decode hands the external decoder only the segment
between the first and second comma (`split(",")[1]`), not the entire remainder
after the first comma, refuting the claimed decode behaviour. -/
theorem c7_counterexample :
    (_getImageSourceFromBase64Str "data:image/png;base64,AAA,BBB").payload = some "AAA"
    ∧ (some "AAA" : Option String) ≠ some "AAA,BBB" :=
  ⟨rfl, by decide⟩

/-- C7 (amended): the host-side decode passes `s.split(",")[1]` — the
comma-free run following the first comma — to the external `fromBase64`
decoder, and when `s` contains no comma it passes `undefined`; this code
raises no `MalformedImageData` error of its own (failure behaviour is whatever
the external decoder does with its argument). -/
theorem c7_amended (a b : String) (ha : ',' ∉ a.data) :
    (_getImageSourceFromBase64Str (a ++ "," ++ b)).payload
      = some (String.mk (b.data.takeWhile (fun x => x != ',')))
    ∧ ∀ s : String, ',' ∉ s.data → (_getImageSourceFromBase64Str s).payload = none := by
  constructor
  · have hdata : (a ++ "," ++ b).data = a.data ++ ',' :: b.data := by
      show (a.data ++ [',']) ++ b.data = a.data ++ ',' :: b.data
      simp
    have hsecond : ∀ (l : List Char) (r : List (List Char)), (l :: r).get? 1 = r.head? := by
      intro l r
      cases r <;> rfl
    unfold _getImageSourceFromBase64Str
    rw [hdata, splitOnChar_append ',' a.data b.data ha, hsecond, splitOnChar_head]
    rfl
  · intro s hs
    unfold _getImageSourceFromBase64Str
    rw [splitOnChar_of_not_mem ',' s.data hs]
    rfl

/-- Witness for C7 (amended) on a concrete data-URI with a comma inside the
payload, and a concrete comma-free string. -/
theorem c7_amended_witness :
    ',' ∉ "data:image/png;base64".data
    ∧ (_getImageSourceFromBase64Str ("data:image/png;base64" ++ "," ++ "AAA,BBB")).payload
        = some (String.mk ("AAA,BBB".data.takeWhile (fun x => x != ',')))
    ∧ (_getImageSourceFromBase64Str "noCommaHere").payload = none :=
  ⟨by decide,
   (c7_amended "data:image/png;base64" "AAA,BBB" (by decide)).1,
   (c7_amended "data:image/png;base64" "AAA,BBB" (by decide)).2 "noCommaHere" (by decide)⟩

/-- C8: a dispatch through either entry point with an unknown canvas id makes
the dispatch promise reject with the no-instance error, and a dispatch whose
instance exists but lacks the named handler makes it reject with the
not-registered error; in both cases no handler is invoked (the instrumented
flag is `false`). -/
theorem c8_routing_failures (m mLater : InstMap)
    (canvasId functionName b64 imgFormat : String)
    (args : List JSVal) (inst : NSCanvasInterface) :
    (_getCanvasInstanceById m canvasId = none →
      _setImage m canvasId functionName b64 args true
        = (.rejected (errNoInstance canvasId), false)
      ∧ _createImage m mLater canvasId functionName imgFormat args
        = (.rejected (errNoInstance canvasId), false))
    ∧ (_getCanvasInstanceById m canvasId = some inst →
      inst.canvasReqHandlers functionName = none →
      _setImage m canvasId functionName b64 args true
        = (.rejected (errNotRegistered functionName canvasId), false)
      ∧ _createImage m mLater canvasId functionName imgFormat args
        = (.rejected (errNotRegistered functionName canvasId), false)) := by
  constructor
  · intro hm
    constructor <;> simp [_setImage, _createImage, _callCanvasReqHandler, hm]
  · intro hm hh
    constructor <;> simp [_setImage, _createImage, _callCanvasReqHandler, hm, hh]

/-- Witness for C8 at an empty instance table and at an instance with an empty
handler map. -/
theorem c8_routing_failures_witness :
    _setImage [] "c" "f" "b" [] true = (.rejected (errNoInstance "c"), false)
    ∧ _createImage [("c", emptyInst)] [] "c" "f" "png" []
        = (.rejected (errNotRegistered "f" "c"), false) :=
  ⟨((c8_routing_failures [] [] "c" "f" "b" "png" [] emptyInst).1 rfl).1,
   ((c8_routing_failures [("c", emptyInst)] [] "c" "f" "b" "png" [] emptyInst).2 rfl rfl).2⟩

/-- C9: registering a second instance under an identity already present is
last-write-wins — after the second construction, lookup for that identity
yields the newest instance, and dispatch against the table behaves exactly as
dispatch against a table holding only the newest instance (only its handler
map is consulted). -/
theorem c9_last_write_wins (m : InstMap) (inst1 inst2 : NSCanvasInterface)
    (functionName : String) (args : List JSVal)
    (_hid : inst1.canvas.id = inst2.canvas.id) :
    _getCanvasInstanceById (registerInstance inst2 (registerInstance inst1 m)) inst2.canvas.id
      = some inst2
    ∧ _callCanvasReqHandler (registerInstance inst2 (registerInstance inst1 m))
        inst2.canvas.id functionName args
      = _callCanvasReqHandler (registerInstance inst2 []) inst2.canvas.id functionName args := by
  have hl : ∀ m' : InstMap,
      _getCanvasInstanceById (registerInstance inst2 m') inst2.canvas.id = some inst2 := by
    intro m'
    simp [registerInstance, _getCanvasInstanceById]
  exact ⟨hl _, by simp [_callCanvasReqHandler, hl]⟩

/-- Witness for C9: re-registering id `"c"` with a fresh instance routes
subsequent dispatches to the fresh instance only. -/
theorem c9_last_write_wins_witness :
    _getCanvasInstanceById (registerInstance sevenInst (registerInstance emptyInst [])) "c"
      = some sevenInst
    ∧ _callCanvasReqHandler (registerInstance sevenInst (registerInstance emptyInst []))
        "c" "f" []
      = _callCanvasReqHandler (registerInstance sevenInst []) "c" "f" [] :=
  c9_last_write_wins [] emptyInst sevenInst "f" [] rfl

/-- C10: in `_createImage`, after the handler's result settles the instance
table is consulted a second time, and the exported image string is produced by
the canvas of whichever instance is registered for the identity at that later
moment (`mLater`), not necessarily the canvas whose handler ran. -/
theorem c10_second_lookup (m mLater : InstMap) (canvasId functionName imgFormat : String)
    (args : List JSVal) (inst instLater : NSCanvasInterface) (h : CanvasReqHandler)
    (v d : JSVal)
    (hm : _getCanvasInstanceById m canvasId = some inst)
    (hh : inst.canvasReqHandlers functionName = some h)
    (hv : h (.canvasRef inst.canvas.id :: .contextRef inst.canvas.id :: args) = .returns v)
    (hn : normalizeRetn v = .fulfilled d)
    (hl : _getCanvasInstanceById mLater canvasId = some instLater) :
    _createImage m mLater canvasId functionName imgFormat args
      = (.fulfilled ⟨instLater.canvas.toDataURL
          (if imgFormat = "png" then "image/png" else "image/jpeg"), d⟩, true) := by
  simp [_createImage, _callCanvasReqHandler, hm, hh, hv, hn, hl]

/-- Witness for C10: a new instance (backed by `demoCanvas2`) registered for
id `"c"` while the old instance's handler ran supplies the exported image,
which carries the new canvas's `new[...]` export, not the old `old[...]`. -/
theorem c10_second_lookup_witness :
    _createImage [("c", sevenInst)] (registerInstance newInst [("c", sevenInst)])
        "c" "f" "png" []
      = (.fulfilled ⟨newInst.canvas.toDataURL
          (if "png" = "png" then "image/png" else "image/jpeg"), JSVal.num 7⟩, true)
    ∧ newInst.canvas.toDataURL "image/png" ≠ sevenInst.canvas.toDataURL "image/png" :=
  ⟨c10_second_lookup [("c", sevenInst)] (registerInstance newInst [("c", sevenInst)])
    "c" "f" "png" [] sevenInst newInst sevenHandler (JSVal.num 7) (JSVal.num 7)
    rfl rfl rfl rfl rfl,
   by decide⟩
